import Mathlib

/-!
Verification of the retrieval core of the n8n RAG system.

The definitions below are a shallow embedding of the Python sources:
queries and identifiers are Lean Strings, Python floats are modelled as
rationals, dictionaries with a fixed key set become structures, and the
vector store / text splitter collaborators become function parameters.
Each definition cites the source function it embeds.
-/

/-- Substring test on lists, mirroring the semantics of the Python
operator "in" on strings: startsWithL pat l holds when pat is an initial
segment of l. -/
def startsWithL : List Char → List Char → Bool
  | [], _ => true
  | _ :: _, [] => false
  | a :: as, b :: bs => a == b && startsWithL as bs

/-- occursIn pat l: pat occurs as a contiguous segment of l (the empty
pattern occurs in every list, as in Python). -/
def occursIn (pat : List Char) : List Char → Bool
  | [] => pat.isEmpty
  | b :: bs => startsWithL pat (b :: bs) || occursIn pat bs

/-- strContains s pat is the Python expression pat in s (substring test). -/
def strContains (s pat : String) : Bool :=
  occursIn pat.toList s.toList

/-- Whitespace test used by the model of Python str.strip. -/
def isWSChar (c : Char) : Bool :=
  c == ' ' || c == '\t' || c == '\n' || c == '\r'

/-- Model of the Python expression query.lower().strip()
(3_retrieval_pipeline.py line 103): lowercase every character and drop
surrounding whitespace. Implemented on the character list so that it
evaluates inside the kernel. -/
def cleanQuery (q : String) : String :=
  let lowered := q.toList.map Char.toLower
  String.mk (((lowered.dropWhile isWSChar).reverse.dropWhile isWSChar).reverse)

/-- Workflow intents, from the enum WorkflowIntent in 3_retrieval_pipeline.py. -/
inductive WorkflowIntent where
  | webhook_trigger
  | api_integration
  | data_transformation
  | database_operation
  | ai_automation
  | notification_intent
  | file_processing
  | scheduling
  | error_handling
  | multi_step_workflow
deriving DecidableEq, Repr

/-- The intent keyword table self.intent_keywords, in source (dict insertion)
order; 3_retrieval_pipeline.py lines 46-74. -/
def intentKeywords : List (WorkflowIntent × List String) :=
  [ (.webhook_trigger,
      ["webhook", "trigger", "receive", "endpoint", "listen", "http post", "incoming"]),
    (.api_integration,
      ["api", "rest", "http", "request", "fetch", "get", "post", "external", "service"]),
    (.data_transformation,
      ["transform", "convert", "process", "modify", "format", "parse", "extract", "filter"]),
    (.database_operation,
      ["database", "db", "sql", "postgres", "mysql", "mongodb", "query", "insert", "update"]),
    (.ai_automation,
      ["ai", "gpt", "openai", "llm", "artificial intelligence", "ml", "summarize",
       "summarise", "analyze", "analyse", "generate text", "completion"]),
    (.notification_intent,
      ["notify", "alert", "email", "slack", "discord", "telegram", "send", "message"]),
    (.file_processing,
      ["file", "csv", "excel", "pdf", "upload", "download", "read", "write", "storage"]),
    (.scheduling,
      ["schedule", "cron", "timer", "interval", "daily", "weekly", "periodic", "recurring"]),
    (.error_handling,
      ["error", "retry", "fail", "exception", "handle", "catch", "fallback", "recovery"]) ]

/-- The intent-to-nodes table self.intent_to_nodes; intents missing from the
Python dict (multi_step_workflow) yield no seed nodes. Lines 77-87. -/
def intentToNodes : WorkflowIntent → List String
  | .webhook_trigger => ["n8n-nodes-base.webhook"]
  | .api_integration => ["n8n-nodes-base.httpRequest"]
  | .data_transformation =>
      ["n8n-nodes-base.code", "n8n-nodes-base.function", "n8n-nodes-base.itemLists"]
  | .database_operation =>
      ["n8n-nodes-base.postgres", "n8n-nodes-base.mysql", "n8n-nodes-base.mongodb"]
  | .ai_automation => ["@n8n/n8n-nodes-langchain.openAi"]
  | .notification_intent =>
      ["n8n-nodes-base.slack", "n8n-nodes-base.emailSend", "n8n-nodes-base.discord"]
  | .file_processing =>
      ["n8n-nodes-base.readBinaryFiles", "n8n-nodes-base.spreadsheetFile"]
  | .scheduling => ["n8n-nodes-base.scheduleTrigger", "n8n-nodes-base.cron"]
  | .error_handling => ["n8n-nodes-base.errorTrigger", "n8n-nodes-base.stopAndError"]
  | .multi_step_workflow => []

/-- Entity dictionary with the five fixed categories built by
_extract_entities; 3_retrieval_pipeline.py lines 142-184. -/
structure Entities where
  triggers : List String
  actions : List String
  services : List String
  data_types : List String
  conditions : List String
deriving DecidableEq, Repr

/-- _detect_intent (lines 126-140): count keyword hits per intent, keep the
first intent with a strictly maximal positive score (Python max over dict
insertion order), fall back to multi_step_workflow when all scores are zero. -/
def detectIntent (query : String) : WorkflowIntent :=
  let scored := intentKeywords.map
    (fun p => (p.1, p.2.countP (fun kw => strContains query kw)))
  let best := scored.foldl
    (fun acc p =>
      if p.2 > 0 then
        match acc with
        | none => some p
        | some b => if p.2 > b.2 then some p else acc
      else acc)
    none
  match best with
  | some p => p.1
  | none => .multi_step_workflow

/-- _extract_entities (lines 142-184): independent fixed-vocabulary substring
scans over five categories. -/
def extractEntities (query : String) : Entities :=
  { triggers :=
      ["when", "on", "trigger", "receive", "schedule", "every"].filter
        (fun w => strContains query w)
    services :=
      ["slack", "email", "discord", "telegram", "google", "github",
       "gitlab", "jira", "notion", "airtable", "salesforce", "hubspot"].filter
        (fun w => strContains query w)
    actions :=
      ["send", "create", "update", "delete", "fetch", "transform",
       "notify", "store", "process", "analyze", "generate"].filter
        (fun w => strContains query w)
    data_types :=
      ["json", "csv", "xml", "pdf", "image", "file", "data", "message", "email"].filter
        (fun w => strContains query w)
    conditions :=
      ["if", "when", "filter", "contains", "equals", "greater", "less"].filter
        (fun w => strContains query w) }

/-- The service_to_node mapping local to _identify_required_nodes
(lines 200-222), in source order. -/
def serviceToNode : List (String × String) :=
  [ ("slack", "n8n-nodes-base.slack"),
    ("email", "n8n-nodes-base.emailSend"),
    ("discord", "n8n-nodes-base.discord"),
    ("telegram", "n8n-nodes-base.telegram"),
    ("google", "n8n-nodes-base.googleSheets"),
    ("github", "n8n-nodes-base.github"),
    ("postgres", "n8n-nodes-base.postgres"),
    ("mysql", "n8n-nodes-base.mysql"),
    ("mongodb", "n8n-nodes-base.mongodb"),
    ("openai", "@n8n/n8n-nodes-langchain.openAi"),
    ("gpt", "@n8n/n8n-nodes-langchain.openAi"),
    ("chatgpt", "@n8n/n8n-nodes-langchain.chatOpenAi"),
    ("summarize", "@n8n/n8n-nodes-langchain.openAi"),
    ("summarise", "@n8n/n8n-nodes-langchain.openAi"),
    ("analyze", "@n8n/n8n-nodes-langchain.openAi"),
    ("completion", "@n8n/n8n-nodes-langchain.openAi"),
    ("ai_agent", "@n8n/n8n-nodes-langchain.chatOpenAi"),
    ("conversational_ai", "@n8n/n8n-nodes-langchain.chatOpenAi"),
    ("langchain", "@n8n/n8n-nodes-langchain.chatOpenAi"),
    ("intelligent_agent", "@n8n/n8n-nodes-langchain.agent"),
    ("reasoning_agent", "@n8n/n8n-nodes-langchain.agent") ]

/-- The part of _identify_required_nodes before the trigger insertion
(lines 193-233): seed from the intent table, append one node per detected
service skipping duplicates, then append the code node when condition
entities exist or the transform action was detected. -/
def requiredNodesBase (intent : WorkflowIntent) (ents : Entities) : List String :=
  let r1 := intentToNodes intent
  let r2 := ents.services.foldl
    (fun acc s =>
      match serviceToNode.lookup s with
      | some n => if n ∈ acc then acc else acc ++ [n]
      | none => acc)
    r1
  if ents.conditions ≠ [] ∨ "transform" ∈ ents.actions then
    if "n8n-nodes-base.code" ∈ r2 then r2 else r2 ++ ["n8n-nodes-base.code"]
  else r2

/-- _identify_required_nodes (lines 186-242): the base list, with an entry
block inserted at position 0 when trigger entities were found and no node
identifier contains the substring Trigger. -/
def identifyRequiredNodes (query : String) (intent : WorkflowIntent)
    (ents : Entities) : List String :=
  let base := requiredNodesBase intent ents
  if ents.triggers ≠ [] ∧ ¬ base.any (fun n => strContains n "Trigger") then
    (if strContains query "schedule" || strContains query "every" then
      "n8n-nodes-base.scheduleTrigger"
    else
      "n8n-nodes-base.webhook") :: base
  else base

/-- _assess_complexity (lines 244-255), verbatim branch structure. -/
def assessComplexity (requiredNodes : List String) (ents : Entities) : String :=
  let node_count := requiredNodes.length
  let has_conditions := ents.conditions ≠ []
  if node_count ≤ 2 ∧ ¬ has_conditions then "simple"
  else if node_count ≤ 4 ∨ (node_count ≤ 3 ∧ has_conditions) then "moderate"
  else "complex"

/-- Result record QueryAnalysis (lines 31-39). -/
structure QueryAnalysis where
  original_query : String
  cleaned_query : String
  intent : WorkflowIntent
  entities : Entities
  required_nodes : List String
  workflow_complexity : String
deriving DecidableEq, Repr

/-- N8nQueryProcessor.analyze_query (lines 99-124). -/
def analyzeQuery (query : String) : QueryAnalysis :=
  let cleaned := cleanQuery query
  let intent := detectIntent cleaned
  let ents := extractEntities cleaned
  let required := identifyRequiredNodes cleaned intent ents
  { original_query := query
    cleaned_query := cleaned
    intent := intent
    entities := ents
    required_nodes := required
    workflow_complexity := assessComplexity required ents }

/-- Lowercasing on the character list, modelling Python str.lower. -/
def lowerStr (s : String) : String :=
  String.mk (s.toList.map Char.toLower)

/-- A raw vector-store hit as consumed by the service-aware reranker:
document text, flattened metadata (an association list standing for the
Python metadata dict, with the node_type key carrying the block identifier),
and the reported distance. -/
structure Hit where
  document : String
  metadata : List (String × String)
  distance : ℚ
deriving DecidableEq, Repr

/-- The service-pattern table of _detect_service_mentions
(4_ollama_integration.py lines 151-181), in dict insertion order. -/
def servicePatterns : List (String × List String) :=
  [ ("gmail", ["gmail", "google mail", "gmail account", "gmail api"]),
    ("whatsapp", ["whatsapp", "whats app", "whatsapp message", "whatsapp business", "wa message"]),
    ("telegram", ["telegram", "telegram bot", "telegram message"]),
    ("slack", ["slack", "slack channel", "slack notification"]),
    ("discord", ["discord", "discord bot", "discord message"]),
    ("reddit", ["reddit", "reddit post", "reddit posts", "reddit subreddit", "subreddit",
                "r/", "/r/", "reddit data", "reddit feed", "reddit api", "from reddit",
                "reddit content"]),
    ("twitter", ["twitter", "tweet", "x.com"]),
    ("linkedin", ["linkedin", "linkedin post"]),
    ("facebook", ["facebook", "fb"]),
    ("instagram", ["instagram", "insta"]),
    ("youtube", ["youtube", "youtube video"]),
    ("postgres", ["postgres", "postgresql", "pg"]),
    ("mysql", ["mysql"]),
    ("mongodb", ["mongodb", "mongo"]),
    ("salesforce", ["salesforce", "sfdc"]),
    ("hubspot", ["hubspot"]),
    ("notion", ["notion"]),
    ("trello", ["trello"]),
    ("asana", ["asana"]),
    ("jira", ["jira"]),
    ("github", ["github", "git"]),
    ("aws", ["aws", "amazon web services"]),
    ("outlook", ["outlook", "microsoft outlook", "office 365"]),
    ("smtp", ["smtp", "email server", "mail server"]),
    ("webhook", ["webhook", "http trigger"]),
    ("openai", ["openai", "open ai", "gpt", "chatgpt", "summarize", "summarise",
                "ai summary", "ai analysis", "ai processing", "llm", "language model"]),
    ("openai_assistant", ["assistant", "create assistant", "openai assistant", "ai assistant"]) ]

/-- _detect_service_mentions (lines 151-190): a service is detected when any
of its patterns occurs in the (already lowercased) query; detection order is
table order, the inner loop stopping at the first matching pattern. -/
def detectServiceMentions (query : String) : List String :=
  (servicePatterns.filter (fun p => p.2.any (fun pat => strContains query pat))).map (fun p => p.1)

/-- One step of the entity-match bonus loop of
_rank_results_by_service_relevance (lines 263-277); nt is the lowercased
node_type of the hit. -/
def matchBonusStep (nt : String) (acc : ℚ) (service : String) : ℚ :=
  if strContains nt service then
    if service = "gmail" ∧ strContains nt "gmail" then acc + 0.5
    else if service = "reddit" ∧ strContains nt "reddit" then acc + 0.5
    else if service = "whatsapp" ∧ strContains nt "whatsapp" then acc + 0.5
    else if service = "openai" ∧ strContains nt "openai" then acc + 0.5
    else if service = "smtp" ∧ strContains nt "emailsend" then acc + 0.2
    else acc + 0.3
  else acc

/-- The generic-fallback penalty of _rank_results_by_service_relevance
(lines 279-284). -/
def genericPenalty (mentions : List String) (nt : String) : ℚ :=
  if mentions ≠ [] then
    if "reddit" ∈ mentions ∧ strContains nt "httprequest" then -0.3
    else if "gmail" ∈ mentions ∧ strContains nt "emailsend" then -0.3
    else 0
  else 0

/-- The content-corroboration bonus of _rank_results_by_service_relevance
(lines 286-291): +0.1 per detected service occurring in the document text. -/
def contentBonus (mentions : List String) (doc : String) : ℚ :=
  if doc ≠ "" then
    mentions.foldl (fun acc s => if strContains (lowerStr doc) s then acc + 0.1 else acc) 0
  else 0

/-- The complete service_bonus computation of
_rank_results_by_service_relevance (lines 258-291); the metadata dict and
the node_type value must both be truthy for any bonus to apply. -/
def serviceBonus (mentions : List String) (h : Hit) : ℚ :=
  if h.metadata ≠ [] then
    match h.metadata.lookup "node_type" with
    | some nt0 =>
        if nt0 ≠ "" then
          let nt := lowerStr nt0
          mentions.foldl (matchBonusStep nt) 0
            + genericPenalty mentions nt
            + contentBonus mentions h.document
        else 0
    | none => 0
  else 0

/-- A scored hit, the dict built at lines 295-301. -/
structure ScoredHit where
  document : String
  metadata : List (String × String)
  distance : ℚ
  score : ℚ
  service_bonus : ℚ
deriving DecidableEq, Repr

/-- Scoring of one hit (lines 250-293): base score 1/(1+distance) plus the
service bonus. -/
def scoreHit (mentions : List String) (h : Hit) : ScoredHit :=
  let sb := serviceBonus mentions h
  { document := h.document
    metadata := h.metadata
    distance := h.distance
    score := 1 / (1 + h.distance) + sb
    service_bonus := sb }

/-- Stable insertion into a list sorted descending by the key f: the new
element goes before the first element whose key is not larger, matching the
stability of the Python sort with reverse=True. -/
def insertByDesc (f : α → ℚ) (x : α) : List α → List α
  | [] => [x]
  | y :: ys => if f y ≤ f x then x :: y :: ys else y :: insertByDesc f x ys

/-- Stable descending sort by the key f (model of list.sort(key=f,
reverse=True)). -/
def sortByDesc (f : α → ℚ) : List α → List α
  | [] => []
  | x :: xs => insertByDesc f x (sortByDesc f xs)

/-- _rank_results_by_service_relevance (lines 238-305): score every hit,
then sort descending by final score. -/
def rankResultsByServiceRelevance (mentions : List String) (hits : List Hit) :
    List ScoredHit :=
  sortByDesc (fun r => r.score) (hits.map (scoreHit mentions))

/-- A formatted retrieval result, as built by
AdvancedN8nRetriever._format_results (3_retrieval_pipeline.py lines 604-620). -/
structure RetrievalResult where
  content : String
  metadata : List (String × String)
  relevance_score : ℚ
deriving DecidableEq, Repr

/-- _format_results: each raw (document, metadata, distance) triple becomes
a result with relevance score 1 - distance/2. -/
def formatResults (raw : List (String × List (String × String) × ℚ)) :
    List RetrievalResult :=
  raw.map (fun r => { content := r.1, metadata := r.2.1, relevance_score := 1 - r.2.2 / 2 })

/-- The deduplication key of the node stage (line 571): Python hashes the
first 100 characters of the content; we model the hash by the 100-character
picture itself (hash collisions could only merge more entries, never add
any). -/
def dedupKey (r : RetrievalResult) : String :=
  String.mk (r.content.toList.take 100)

/-- The deduplicate-and-truncate loop of the node stage (lines 569-576):
walk the sorted results, skip repeated keys, stop once k results are kept. -/
def dedupLoop (k : Nat) : List RetrievalResult → List String → List RetrievalResult →
    List RetrievalResult
  | [], _, acc => acc
  | r :: rest, seen, acc =>
    if dedupKey r ∈ seen then dedupLoop k rest seen acc
    else
      let acc2 := acc ++ [r]
      if k ≤ acc2.length then acc2 else dedupLoop k rest (dedupKey r :: seen) acc2

/-- Per-collection output of _multi_stage_retrieval. -/
structure MultiStageResults where
  nodes : List RetrievalResult
  templates : List RetrievalResult
  tasks : List RetrievalResult
  connections : List RetrievalResult
deriving DecidableEq, Repr

/-- _multi_stage_retrieval (lines 540-602). The vector store is the oracle
store c i n: raw triples returned when collection c is queried with the
embedding of expanded query number i asking for n results; loaded c says
whether collection c was found at startup (_load_collections). The node
stage uses the first two expanded-query embeddings (numQueries is the length
of the expanded query list, always at least 1 for real callers), the other
stages only embedding 0. -/
def multiStageRetrieval (loaded : String → Bool)
    (store : String → Nat → Nat → List (String × List (String × String) × ℚ))
    (numQueries : Nat) (k : Nat) : MultiStageResults :=
  let nodes :=
    if loaded "n8n_nodes" then
      let nodeResults := (List.range (min 2 numQueries)).foldl
        (fun acc i => acc ++ formatResults (store "n8n_nodes" i k)) []
      dedupLoop k (sortByDesc (fun r => r.relevance_score) nodeResults) [] []
    else []
  let templates :=
    if loaded "n8n_templates" then formatResults (store "n8n_templates" 0 (min k 3)) else []
  let tasks :=
    if loaded "n8n_tasks" then formatResults (store "n8n_tasks" 0 (min k 3)) else []
  let connections :=
    if loaded "n8n_connections" then formatResults (store "n8n_connections" 0 (min k 2)) else []
  { nodes := nodes, templates := templates, tasks := tasks, connections := connections }

/-- The per-block documentation record built by _get_node_documentation
(3_retrieval_pipeline.py lines 338-359). -/
structure NodeDoc where
  node_type : String
  properties : List (String × String)
  description : String
  configuration : List (String × String)
deriving DecidableEq, Repr

/-- The initial record of _get_node_documentation (lines 340-345). -/
def emptyNodeDoc (nt : String) : NodeDoc :=
  { node_type := nt, properties := [], description := "", configuration := [] }

/-- The scanning loop of _get_node_documentation (lines 348-357): every
chunk whose content contains the block identifier overwrites the
description with its first 500 characters; the loop stops (break) at the
first chunk whose metadata node_type equals the identifier, storing that
chunk's metadata as the properties. -/
def getNodeDocGo (nt : String) (doc : NodeDoc) : List RetrievalResult → NodeDoc
  | [] => doc
  | c :: rest =>
    if strContains c.content nt then
      let doc2 := { doc with description := String.mk (c.content.toList.take 500) }
      if c.metadata.lookup "node_type" = some nt then
        { doc2 with properties := c.metadata }
      else getNodeDocGo nt doc2 rest
    else getNodeDocGo nt doc rest

/-- _get_node_documentation (lines 338-359). -/
def getNodeDocumentation (nt : String) (nodeChunks : List RetrievalResult) : NodeDoc :=
  getNodeDocGo nt (emptyNodeDoc nt) nodeChunks

/-- The node-documentation part of assemble_context (lines 316-320). The
Python guard if node_docs: is always satisfied because
_get_node_documentation returns a dict with four keys, which is truthy, so
one entry is appended per required block unconditionally. -/
def assembleNodeDocumentation (required : List String)
    (nodeChunks : List RetrievalResult) : List NodeDoc :=
  required.map (fun nt => getNodeDocumentation nt nodeChunks)

/-- The four unconditional validation rules of _get_validation_rules
(lines 393-398). -/
def fixedValidationRules : List String :=
  [ "Workflow must have at least one trigger node",
    "All node connections must be valid",
    "Node IDs must be unique",
    "Position arrays must have [x, y] coordinates" ]

/-- _get_validation_rules (lines 391-410). Note that the two final checks
are Python list membership of the literal strings nodes-base.webhook and
nodes-base.code in required_nodes, exactly as written in the source. -/
def getValidationRules (required : List String) : List String :=
  let rules1 :=
    if required.any (fun n => strContains n "Trigger") then
      fixedValidationRules ++ ["Only one trigger node per workflow"]
    else fixedValidationRules
  let rules2 :=
    if "nodes-base.webhook" ∈ required then
      rules1 ++ ["Webhook must have httpMethod and path parameters"]
    else rules1
  if "nodes-base.code" ∈ required then
    rules2 ++ ["Code node must have valid JavaScript in jsCode parameter"]
  else rules2

/-- IntelligentChunker.split_text (chunking_utils.py lines 51-56). The
recursive-character splitter used beyond the short-text shortcut is an
external collaborator, passed in as the function splitter. -/
def splitText (splitter : String → List String) (chunk_size : Nat) (text : String) :
    List String :=
  if text = "" ∨ text.length ≤ chunk_size then
    if text ≠ "" then [text] else []
  else splitter text

/-- One generation-history row (5_feedback_loop_system.py lines 110-125;
the serialized JSON columns are kept structured). -/
structure GenRow where
  query : String
  intent : String
  complexity : String
  required_nodes : List String
  success : Bool
deriving DecidableEq, Repr

/-- One row of the node_effectiveness (or pattern_success) table. -/
structure EffRecord where
  total_uses : Nat
  successful_uses : Nat
  avg_relevance_score : ℚ
deriving DecidableEq, Repr

/-- The part of the assembled context that record_generation reads. -/
structure FeedbackCtx where
  intent : String
  complexity : String
  required_nodes : List String
  workflow_patterns : List (String × String)
deriving DecidableEq, Repr

/-- Persistent state of FeedbackLoop: the generation_history,
node_effectiveness and pattern_success tables. The two effectiveness
tables are keyed by their primary-key column, so keys are unique and the
SQL select-update-or-insert is modelled by first-occurrence replacement. -/
structure FeedbackState where
  history : List GenRow
  nodeEff : List (String × EffRecord)
  patternEff : List (String × EffRecord)
deriving DecidableEq, Repr

/-- One select-update-or-insert step of _update_node_effectiveness
(lines 150-186) and _update_pattern_effectiveness (lines 198-231):
increment the counters of the existing row for the key, storing
successful_uses/total_uses as the score, or insert a fresh row with
counters (1, success ? 1 : 0) and score 1.0 or 0.0. -/
def updEffList (success : Bool) (key : String) :
    List (String × EffRecord) → List (String × EffRecord)
  | [] =>
      [(key, ({ total_uses := 1
                successful_uses := if success then 1 else 0
                avg_relevance_score := if success then 1 else 0 } : EffRecord))]
  | p :: ps =>
    if p.1 = key then
      let t := p.2.total_uses + 1
      let s := p.2.successful_uses + (if success then 1 else 0)
      (key, { total_uses := t, successful_uses := s,
              avg_relevance_score := (s : ℚ) / (t : ℚ) }) :: ps
    else p :: updEffList success key ps

/-- _update_node_effectiveness (lines 143-189): one update per entry of
the context's required-blocks list. -/
def updateNodeEffectiveness (ctx : FeedbackCtx) (success : Bool)
    (table : List (String × EffRecord)) : List (String × EffRecord) :=
  ctx.required_nodes.foldl (fun tab nt => updEffList success nt tab) table

/-- _update_pattern_effectiveness (lines 191-234): one update per pattern
identifier referenced by the context. -/
def updatePatternEffectiveness (ctx : FeedbackCtx) (success : Bool)
    (table : List (String × EffRecord)) : List (String × EffRecord) :=
  (ctx.workflow_patterns.map (fun p => p.1)).foldl
    (fun tab pid => updEffList success pid tab) table

/-- record_generation (lines 88-141). workflow is the Python truthiness of
the workflow argument (None or an empty dict are falsy). The history row is
always appended; node effectiveness is updated as a success only when
success and workflow are both truthy, as a failure when success is falsy,
and not at all when success is truthy but workflow is falsy; pattern
effectiveness is always updated with the success flag. -/
def recordGeneration (query : String) (ctx : FeedbackCtx) (workflow : Bool)
    (success : Bool) (st : FeedbackState) : FeedbackState :=
  let st1 := { st with history := st.history ++
    [({ query := query, intent := ctx.intent, complexity := ctx.complexity,
        required_nodes := ctx.required_nodes, success := success } : GenRow)] }
  let st2 :=
    if success ∧ workflow then
      { st1 with nodeEff := updateNodeEffectiveness ctx true st1.nodeEff }
    else if ¬ success then
      { st1 with nodeEff := updateNodeEffectiveness ctx false st1.nodeEff }
    else st1
  { st2 with patternEff := updatePatternEffectiveness ctx success st2.patternEff }

/-- get_node_weights (lines 236-254) read for a single block identifier:
the stored score of the row for that identifier, provided total_uses is
positive (the SQL WHERE clause); the tables are primary-key unique so the
dict built by the source contains exactly these entries. -/
def getNodeWeight (st : FeedbackState) (b : String) : Option ℚ :=
  match st.nodeEff.lookup b with
  | some r => if 0 < r.total_uses then some r.avg_relevance_score else none
  | none => none

/-- Total uses recorded for a block (0 when the block has no row yet). -/
def totalUses (table : List (String × EffRecord)) (b : String) : Nat :=
  match table.lookup b with
  | some r => r.total_uses
  | none => 0

/-- Successful uses recorded for a block (0 when the block has no row yet). -/
def succUses (table : List (String × EffRecord)) (b : String) : Nat :=
  match table.lookup b with
  | some r => r.successful_uses
  | none => 0

/-- The complexity formula the code actually implements, written the way the
amended claim states it: SIMPLE for at most two blocks without condition
entities, COMPLEX only for strictly more than four blocks, MODERATE in every
other case (in particular for exactly four blocks with conditions). -/
def complexitySpecAmended (requiredNodes : List String) (ents : Entities) : String :=
  if requiredNodes.length ≤ 2 ∧ ents.conditions = [] then "simple"
  else if 4 < requiredNodes.length then "complex"
  else "moderate"

/-- The empty feedback database, as created by _init_database. -/
def initFeedbackState : FeedbackState :=
  { history := [], nodeEff := [], patternEff := [] }

/-- A context whose required-blocks list is the single block X, used for the
recorded-feedback scenario. -/
def c4Ctx : FeedbackCtx :=
  { intent := "notification", complexity := "simple",
    required_nodes := ["X"], workflow_patterns := [] }

/-- State after recording ten successful generations (with a workflow) for
block X. -/
def c4After10 : FeedbackState :=
  (List.range 10).foldl (fun st _ => recordGeneration "q" c4Ctx true true st)
    initFeedbackState

/-- State after one further failed generation for block X. -/
def c4After11 : FeedbackState :=
  recordGeneration "q" c4Ctx true false c4After10

/-- Conclusion of the amended record-generation claim: the history grows by
one row; each required block's totals grow by its number of occurrences in
the required list, the success count only on success; and the block weight
equals successfulUses/totalUses; together with the ten-successes-then-one-
failure scenario for block X. -/
def C4Concl (q : String) (ctx : FeedbackCtx) (wf succ : Bool)
    (st : FeedbackState) (b : String) : Prop :=
  (recordGeneration q ctx wf succ st).history.length = st.history.length + 1 ∧
  totalUses (recordGeneration q ctx wf succ st).nodeEff b
    = totalUses st.nodeEff b + ctx.required_nodes.count b ∧
  succUses (recordGeneration q ctx wf succ st).nodeEff b
    = succUses st.nodeEff b + (if succ then ctx.required_nodes.count b else 0) ∧
  getNodeWeight (recordGeneration q ctx wf succ st) b
    = some ((succUses (recordGeneration q ctx wf succ st).nodeEff b : ℚ)
        / (totalUses (recordGeneration q ctx wf succ st).nodeEff b : ℚ)) ∧
  getNodeWeight c4After10 "X" = some 1 ∧
  getNodeWeight c4After11 "X" = some (10 / 11) ∧
  (10 / 11 : ℚ) < 1

/-- Conclusion of the amended multi-stage-retrieval claim: per-collection
size caps and emptiness for collections that were not loaded. -/
def C10Concl (loaded : String → Bool)
    (store : String → Nat → Nat → List (String × List (String × String) × ℚ))
    (numQueries k : Nat) : Prop :=
  (multiStageRetrieval loaded store numQueries k).nodes.length ≤ k ∧
  (multiStageRetrieval loaded store numQueries k).templates.length ≤ min k 3 ∧
  (multiStageRetrieval loaded store numQueries k).tasks.length ≤ min k 3 ∧
  (multiStageRetrieval loaded store numQueries k).connections.length ≤ min k 2 ∧
  (loaded "n8n_nodes" = false → (multiStageRetrieval loaded store numQueries k).nodes = []) ∧
  (loaded "n8n_templates" = false → (multiStageRetrieval loaded store numQueries k).templates = []) ∧
  (loaded "n8n_tasks" = false → (multiStageRetrieval loaded store numQueries k).tasks = []) ∧
  (loaded "n8n_connections" = false → (multiStageRetrieval loaded store numQueries k).connections = [])

/-- A store response that returns four template documents even though only
three were requested, and nothing for any other collection. -/
def c10Store (c : String) (_i _n : Nat) : List (String × List (String × String) × ℚ) :=
  if c = "n8n_templates" then
    [("a", [], 0), ("b", [], 0), ("c", [], 0), ("d", [], 0)]
  else []

/-- A store response that is empty for every query. -/
def emptyStore : String → Nat → Nat → List (String × List (String × String) × ℚ) :=
  fun _ _ _ => []

/-- A hit whose block identifier contains the detected entity smtp but no
other detected entity. -/
def c1HitMatch : Hit :=
  { document := "d", metadata := [("node_type", "smtp")], distance := 0 }

/-- A hit whose block identifier does not contain smtp but does contain the
other detected entity gmail. -/
def c1HitOther : Hit :=
  { document := "d", metadata := [("node_type", "gmail")], distance := 0 }

/-- A hit matching the single detected entity reddit. -/
def c1wMatch : Hit :=
  { document := "d", metadata := [("node_type", "n8n-nodes-base.reddit")], distance := 1 }

/-- A generic hit that does not match the detected entity reddit. -/
def c1wOther : Hit :=
  { document := "d", metadata := [("node_type", "n8n-nodes-base.httpRequest")], distance := 1 }

/-! Helper lemmas about the stable descending sort. -/

theorem mem_insertByDesc {α : Type _} (f : α → ℚ) (x z : α) (l : List α) :
    z ∈ insertByDesc f x l ↔ z = x ∨ z ∈ l := by
  induction l with
  | nil => simp [insertByDesc]
  | cons y ys ih =>
    simp only [insertByDesc]
    split <;> simp [List.mem_cons, ih] <;> tauto

theorem pairwise_insertByDesc {α : Type _} (f : α → ℚ) (x : α) (l : List α)
    (h : l.Pairwise (fun a b => f b ≤ f a)) :
    (insertByDesc f x l).Pairwise (fun a b => f b ≤ f a) := by
  induction l with
  | nil => simp [insertByDesc]
  | cons y ys ih =>
    rw [List.pairwise_cons] at h
    obtain ⟨hy, hys⟩ := h
    simp only [insertByDesc]
    split
    · rename_i hxy
      exact List.Pairwise.cons
        (fun z hz => by
          rcases List.mem_cons.mp hz with rfl | hz'
          · exact hxy
          · exact le_trans (hy z hz') hxy)
        (List.Pairwise.cons hy hys)
    · rename_i hxy
      exact List.Pairwise.cons
        (fun z hz => by
          rcases (mem_insertByDesc f x z ys).mp hz with rfl | hz'
          · exact (lt_of_not_le hxy).le
          · exact hy z hz')
        (ih hys)

theorem pairwise_sortByDesc {α : Type _} (f : α → ℚ) (l : List α) :
    (sortByDesc f l).Pairwise (fun a b => f b ≤ f a) := by
  induction l with
  | nil => simp [sortByDesc]
  | cons x xs ih => simpa only [sortByDesc] using pairwise_insertByDesc f x _ ih

theorem sorted_key_position {α : Type _} (f : α → ℚ) (l : List α)
    (h : l.Pairwise (fun a b => f b ≤ f a)) (i j : ℕ) (a b : α)
    (hia : l[i]? = some a) (hjb : l[j]? = some b)
    (hab : f b < f a) : i < j := by
  obtain ⟨hi, hga⟩ := List.getElem?_eq_some.mp hia
  obtain ⟨hj, hgb⟩ := List.getElem?_eq_some.mp hjb
  rcases lt_trichotomy i j with hlt | heq | hgt
  · exact hlt
  · exfalso
    subst heq
    rw [hga] at hgb
    rw [hgb] at hab
    exact lt_irrefl _ hab
  · exfalso
    have hp := (List.pairwise_iff_getElem.mp h) j i hj hi hgt
    rw [hga, hgb] at hp
    exact absurd hab (not_lt.mpr hp)

/-! Helper lemmas about deduplication and the multi-stage loops. -/

theorem dedupLoop_length_le (k : Nat) (l : List RetrievalResult) :
    ∀ (seen : List String) (acc : List RetrievalResult), acc.length < k →
      (dedupLoop k l seen acc).length ≤ k := by
  induction l with
  | nil => intro seen acc h; simpa [dedupLoop] using Nat.le_of_lt h
  | cons r rest ih =>
    intro seen acc h
    simp only [dedupLoop]
    split
    · exact ih _ _ h
    · split
      · simp only [List.length_append, List.length_singleton]
        omega
      · rename_i hk
        refine ih _ _ ?_
        simp only [List.length_append, List.length_singleton] at hk ⊢
        omega

theorem foldl_append_nil (g : Nat → List RetrievalResult)
    (hg : ∀ i, g i = []) (L : List Nat) :
    ∀ acc, L.foldl (fun acc i => acc ++ g i) acc = acc := by
  induction L with
  | nil => intro acc; rfl
  | cons a L ih =>
    intro acc
    simp only [List.foldl_cons, hg a, List.append_nil]
    exact ih acc

theorem formatResults_length (raw : List (String × List (String × String) × ℚ)) :
    (formatResults raw).length = raw.length := by
  simp [formatResults]

/-! Helper lemmas about the effectiveness tables. -/

theorem lookup_updEffList_self (s : Bool) (k' : String) (T : List (String × EffRecord)) :
    (updEffList s k' T).lookup k' = some
      { total_uses := totalUses T k' + 1
        successful_uses := succUses T k' + (if s then 1 else 0)
        avg_relevance_score :=
          ((succUses T k' + (if s then 1 else 0) : ℕ) : ℚ)
            / ((totalUses T k' + 1 : ℕ) : ℚ) } := by
  induction T with
  | nil =>
    cases s <;> simp [updEffList, totalUses, succUses, List.lookup]
  | cons p ps ih =>
    by_cases hp : p.1 = k'
    · simp [updEffList, hp, totalUses, succUses, List.lookup]
    · have hbeq : (k' == p.1) = false := by
        simp [beq_iff_eq]
        exact fun hcontra => hp hcontra.symm
      simp [updEffList, hp, totalUses, succUses, List.lookup, hbeq, ih]

theorem lookup_updEffList_other (s : Bool) (k' b : String) (hne : b ≠ k')
    (T : List (String × EffRecord)) :
    (updEffList s k' T).lookup b = T.lookup b := by
  have hbeq : (b == k') = false := by simp [beq_iff_eq, hne]
  induction T with
  | nil => simp [updEffList, List.lookup, hbeq]
  | cons p ps ih =>
    by_cases hp : p.1 = k'
    · subst hp
      simp [updEffList, List.lookup, hbeq]
    · simp only [updEffList, if_neg hp, List.lookup]
      split <;> simp [ih]

theorem totalUses_updEffList (s : Bool) (k' b : String) (T : List (String × EffRecord)) :
    totalUses (updEffList s k' T) b = totalUses T b + (if b = k' then 1 else 0) := by
  by_cases hb : b = k'
  · subst hb
    simp [totalUses, lookup_updEffList_self]
  · simp [totalUses, lookup_updEffList_other s k' b hb, hb]

theorem succUses_updEffList (s : Bool) (k' b : String) (T : List (String × EffRecord)) :
    succUses (updEffList s k' T) b
      = succUses T b + (if b = k' then (if s then 1 else 0) else 0) := by
  by_cases hb : b = k'
  · subst hb
    simp [succUses, lookup_updEffList_self]
  · simp [succUses, lookup_updEffList_other s k' b hb, hb]

theorem totalUses_foldUpd (s : Bool) (L : List String) (b : String) :
    ∀ T, totalUses (L.foldl (fun tab nt => updEffList s nt tab) T) b
      = totalUses T b + L.count b := by
  induction L with
  | nil => intro T; simp
  | cons a L ih =>
    intro T
    simp only [List.foldl_cons]
    rw [ih, totalUses_updEffList]
    by_cases hba : b = a <;> simp [hba, List.count_cons] <;> omega

theorem succUses_foldUpd (s : Bool) (L : List String) (b : String) :
    ∀ T, succUses (L.foldl (fun tab nt => updEffList s nt tab) T) b
      = succUses T b + (if s then L.count b else 0) := by
  induction L with
  | nil => intro T; simp
  | cons a L ih =>
    intro T
    simp only [List.foldl_cons]
    rw [ih, succUses_updEffList]
    by_cases hba : b = a <;> cases s <;> simp [hba, List.count_cons] <;> omega

theorem lookup_foldUpd_not_mem (s : Bool) (L : List String) (b : String) (hb : b ∉ L) :
    ∀ T, (L.foldl (fun tab nt => updEffList s nt tab) T).lookup b = T.lookup b := by
  induction L with
  | nil => intro T; rfl
  | cons a L ih =>
    intro T
    have hba : b ≠ a := fun hcontra => hb (hcontra ▸ List.mem_cons_self a L)
    have hbL : b ∉ L := fun hcontra => hb (List.mem_cons_of_mem a hcontra)
    simp only [List.foldl_cons]
    rw [ih hbL, lookup_updEffList_other s a b hba]

theorem avg_foldUpd_mem (s : Bool) (L : List String) (b : String) (hb : b ∈ L) :
    ∀ T, ∃ r : EffRecord,
      (L.foldl (fun tab nt => updEffList s nt tab) T).lookup b = some r ∧
      r.total_uses = totalUses T b + L.count b ∧
      r.successful_uses = succUses T b + (if s then L.count b else 0) ∧
      r.avg_relevance_score = (r.successful_uses : ℚ) / (r.total_uses : ℚ) := by
  induction L with
  | nil => exact absurd hb (List.not_mem_nil b)
  | cons a L ih =>
    intro T
    by_cases hbL : b ∈ L
    · obtain ⟨r, hr, ht, hs, ha⟩ := ih hbL (updEffList s a T)
      refine ⟨r, by simpa only [List.foldl_cons] using hr, ?_, ?_, ha⟩
      · rw [ht, totalUses_updEffList]
        by_cases hba : b = a <;> simp [hba, List.count_cons] <;> omega
      · rw [hs, succUses_updEffList]
        by_cases hba : b = a <;> cases s <;> simp [hba, List.count_cons] <;> omega
    · have hba : b = a := by
        rcases List.mem_cons.mp hb with h | h
        · exact h
        · exact absurd h hbL
      subst hba
      have hcount : L.count b = 0 := List.count_eq_zero.mpr hbL
      refine ⟨{ total_uses := totalUses T b + 1
                successful_uses := succUses T b + (if s then 1 else 0)
                avg_relevance_score :=
                  ((succUses T b + (if s then 1 else 0) : ℕ) : ℚ)
                    / ((totalUses T b + 1 : ℕ) : ℚ) }, ?_, ?_, ?_, rfl⟩
      · simp only [List.foldl_cons]
        rw [lookup_foldUpd_not_mem s L b hbL, lookup_updEffList_self]
      · simp [List.count_cons, hcount]
      · cases s <;> simp [List.count_cons, hcount]

/-! Helper lemmas about the service-aware scoring. -/

theorem contentBonus_nonneg (mentions : List String) (doc : String) :
    0 ≤ contentBonus mentions doc := by
  unfold contentBonus
  split
  · have h : ∀ (l : List String) (a : ℚ),
        a ≤ l.foldl (fun acc s => if strContains (lowerStr doc) s then acc + 0.1 else acc) a := by
      intro l
      induction l with
      | nil => intro a; simp
      | cons x xs ih =>
        intro a
        simp only [List.foldl_cons]
        split
        · calc a ≤ a + 0.1 := by norm_num
            _ ≤ _ := ih _
        · exact ih a
    simpa using h mentions 0
  · exact le_refl 0

theorem genericPenalty_nonpos (mentions : List String) (nt : String) :
    genericPenalty mentions nt ≤ 0 := by
  unfold genericPenalty
  split_ifs <;> norm_num

theorem genericPenalty_ge (mentions : List String) (nt : String) :
    -0.3 ≤ genericPenalty mentions nt := by
  unfold genericPenalty
  split_ifs <;> norm_num

theorem matchBonus_ge (nt s : String) (hc : strContains nt s = true) :
    0.2 ≤ matchBonusStep nt 0 s := by
  unfold matchBonusStep
  simp only [hc, if_true]
  split_ifs <;> norm_num

theorem matchBonus_reddit (nt : String) (hc : strContains nt "reddit" = true) :
    matchBonusStep nt 0 "reddit" = 0.5 := by
  unfold matchBonusStep
  simp +decide [hc]

theorem matchBonus_gmail (nt : String) (hc : strContains nt "gmail" = true) :
    matchBonusStep nt 0 "gmail" = 0.5 := by
  unfold matchBonusStep
  simp +decide [hc]

theorem genericPenalty_singleton_eq_zero (s nt : String)
    (h1 : s ≠ "reddit") (h2 : s ≠ "gmail") : genericPenalty [s] nt = 0 := by
  have hc1 : ¬("reddit" ∈ [s] ∧ strContains nt "httprequest" = true) := by
    rintro ⟨hm, _⟩
    rw [List.mem_singleton] at hm
    exact h1 hm.symm
  have hc2 : ¬("gmail" ∈ [s] ∧ strContains nt "emailsend" = true) := by
    rintro ⟨hm, _⟩
    rw [List.mem_singleton] at hm
    exact h2 hm.symm
  unfold genericPenalty
  rw [if_pos (by simp : ([s] : List String) ≠ []), if_neg hc1, if_neg hc2]

theorem bonus_lower (s nt : String) (hc : strContains nt s = true) :
    0.2 ≤ matchBonusStep nt 0 s + genericPenalty [s] nt := by
  by_cases hr : s = "reddit"
  · subst hr
    rw [matchBonus_reddit nt hc]
    have := genericPenalty_ge ["reddit"] nt
    linarith
  · by_cases hg : s = "gmail"
    · subst hg
      rw [matchBonus_gmail nt hc]
      have := genericPenalty_ge ["gmail"] nt
      linarith
    · rw [genericPenalty_singleton_eq_zero s nt hr hg]
      have := matchBonus_ge nt s hc
      linarith

theorem serviceBonus_singleton_match (s : String) (h : Hit) (nt0 : String)
    (hmeta : h.metadata ≠ []) (hnt : h.metadata.lookup "node_type" = some nt0)
    (hne : nt0 ≠ "") (hc : strContains (lowerStr nt0) s = true) :
    0.2 + contentBonus [s] h.document ≤ serviceBonus [s] h := by
  simp only [serviceBonus, hnt, if_pos hmeta, if_pos hne]
  simp only [List.foldl_cons, List.foldl_nil]
  have := bonus_lower s (lowerStr nt0) hc
  linarith

theorem serviceBonus_singleton_nomatch (s : String) (h : Hit)
    (hno : ∀ nt, h.metadata.lookup "node_type" = some nt →
      strContains (lowerStr nt) s = false) :
    serviceBonus [s] h ≤ contentBonus [s] h.document := by
  unfold serviceBonus
  split
  · cases hl : h.metadata.lookup "node_type" with
    | none => simpa [hl] using contentBonus_nonneg [s] h.document
    | some nt0 =>
      simp only [hl]
      split
      · have hcon := hno nt0 hl
        simp only [List.foldl_cons, List.foldl_nil]
        unfold matchBonusStep
        simp only [hcon, Bool.false_eq_true, if_false]
        have := genericPenalty_nonpos [s] (lowerStr nt0)
        linarith
      · exact contentBonus_nonneg [s] h.document
  · exact contentBonus_nonneg [s] h.document

theorem scoreHit_singleton_lt (s : String) (hA hB : Hit) (nt0 : String)
    (hd : hA.distance = hB.distance) (hdoc : hA.document = hB.document)
    (hmeta : hA.metadata ≠ []) (hnt : hA.metadata.lookup "node_type" = some nt0)
    (hne : nt0 ≠ "") (hc : strContains (lowerStr nt0) s = true)
    (hno : ∀ nt, hB.metadata.lookup "node_type" = some nt →
      strContains (lowerStr nt) s = false) :
    (scoreHit [s] hB).score < (scoreHit [s] hA).score := by
  simp only [scoreHit]
  rw [hd] at *
  have h1 := serviceBonus_singleton_match s hA nt0 hmeta hnt hne hc
  have h2 := serviceBonus_singleton_nomatch s hB hno
  rw [hdoc] at h1
  linarith

/-! Claim C1. -/

/-- Claim C1 counterexample: the claim as stated is false. For the query
about forwarding gmail through an smtp server, both gmail and smtp are
detected; a hit whose block identifier contains the detected entity smtp is
ranked strictly below a hit with identical distance and document text whose
identifier does not contain smtp (it contains gmail instead, which earns the
larger bonus), so the entity-matching hit does rank below the non-matching
one. -/
theorem c1_claim_counterexample :
    detectServiceMentions "send gmail report through smtp mail server" = ["gmail", "smtp"] ∧
    c1HitMatch.distance = c1HitOther.distance ∧
    c1HitMatch.document = c1HitOther.document ∧
    c1HitMatch.metadata.lookup "node_type" = some "smtp" ∧
    c1HitOther.metadata.lookup "node_type" = some "gmail" ∧
    strContains (lowerStr "smtp") "smtp" = true ∧
    strContains (lowerStr "gmail") "smtp" = false ∧
    rankResultsByServiceRelevance ["gmail", "smtp"] [c1HitMatch, c1HitOther]
      = [scoreHit ["gmail", "smtp"] c1HitOther, scoreHit ["gmail", "smtp"] c1HitMatch] := by
  refine ⟨by decide, rfl, rfl, by decide, by decide, by decide, by decide, ?_⟩
  simp +decide [rankResultsByServiceRelevance, sortByDesc, insertByDesc, scoreHit,
    serviceBonus, matchBonusStep, genericPenalty, contentBonus, c1HitMatch, c1HitOther,
    List.lookup]
  norm_num

/-- Claim C1 (amended): when exactly one service entity s is detected in the
query, then for any two hits that are identical in distance and document
text, where one hit's block identifier (metadata node_type, lowercased)
textually contains s and the other's does not, the matching hit always
ranks strictly before the non-matching hit in the list returned by
_rank_results_by_service_relevance, because with a single detected service
the entity-match bonus is at least 0.2 even after any generic-fallback
penalty while the non-matching hit's bonus never exceeds the shared
content bonus. -/
theorem c1_entity_match_monotone_amended
    (q s : String) (hits : List Hit) (hA hB : Hit) (nt0 : String) (i j : ℕ)
    (hm : detectServiceMentions q = [s])
    (hd : hA.distance = hB.distance) (hdoc : hA.document = hB.document)
    (hmeta : hA.metadata ≠ []) (hnt : hA.metadata.lookup "node_type" = some nt0)
    (hne : nt0 ≠ "") (hc : strContains (lowerStr nt0) s = true)
    (hno : ∀ nt, hB.metadata.lookup "node_type" = some nt →
      strContains (lowerStr nt) s = false)
    (hi : (rankResultsByServiceRelevance [s] hits)[i]? = some (scoreHit [s] hA))
    (hj : (rankResultsByServiceRelevance [s] hits)[j]? = some (scoreHit [s] hB)) :
    i < j := by
  have hpw : (rankResultsByServiceRelevance [s] hits).Pairwise
      (fun a b => b.score ≤ a.score) :=
    pairwise_sortByDesc (fun r : ScoredHit => r.score) (hits.map (scoreHit [s]))
  exact sorted_key_position (fun r : ScoredHit => r.score) _ hpw i j _ _ hi hj
    (scoreHit_singleton_lt s hA hB nt0 hd hdoc hmeta hnt hne hc hno)

/-- Witness for the amended claim C1, at the query reddit with one matching
and one generic hit. -/
theorem c1_entity_match_monotone_amended_witness :
    detectServiceMentions "reddit" = ["reddit"] ∧ (0 : ℕ) < 1 := by
  have hrank : rankResultsByServiceRelevance ["reddit"] [c1wOther, c1wMatch]
      = [scoreHit ["reddit"] c1wMatch, scoreHit ["reddit"] c1wOther] := by
    simp +decide [rankResultsByServiceRelevance, sortByDesc, insertByDesc, scoreHit,
      serviceBonus, matchBonusStep, genericPenalty, contentBonus, c1wMatch, c1wOther,
      List.lookup]
    norm_num
  refine ⟨by decide, ?_⟩
  refine c1_entity_match_monotone_amended "reddit" "reddit" [c1wOther, c1wMatch]
    c1wMatch c1wOther "n8n-nodes-base.reddit" 0 1 (by decide) rfl rfl (by decide)
    (by decide) (by decide) (by decide) ?_ ?_ ?_
  · intro nt hnt
    have hv : c1wOther.metadata.lookup "node_type" = some "n8n-nodes-base.httpRequest" := by
      decide
    rw [hv] at hnt
    have : nt = "n8n-nodes-base.httpRequest" := (Option.some_inj.mp hnt).symm
    subst this
    decide
  · rw [hrank]
    rfl
  · rw [hrank]
    rfl

/-! Claim C2. -/

/-- Claim C2 counterexample: the complexity claim is false as stated. The
query about sending slack, email and discord messages conditionally yields
exactly four required blocks together with condition entities, yet the code
rates it moderate, not complex. -/
theorem c2_complexity_counterexample :
    (analyzeQuery "send slack email discord message if needed").required_nodes.length = 4 ∧
    (analyzeQuery "send slack email discord message if needed").entities.conditions ≠ [] ∧
    (analyzeQuery "send slack email discord message if needed").workflow_complexity
      = "moderate" ∧
    (analyzeQuery "send slack email discord message if needed").workflow_complexity
      ≠ "complex" := by
  refine ⟨by decide, by decide, by decide, by decide⟩

/-- Claim C2 (amended): for every analyzed query, the complexity rating is
SIMPLE when the required-blocks list has at most 2 entries and no condition
entities were detected, COMPLEX exactly when the list has strictly more than
4 entries, and MODERATE in every other case; in particular exactly 4 blocks
with condition entities is rated MODERATE. -/
theorem c2_complexity_amended (requiredNodes : List String) (ents : Entities) :
    assessComplexity requiredNodes ents = complexitySpecAmended requiredNodes ents := by
  by_cases hc : ents.conditions = [] <;>
    simp [assessComplexity, complexitySpecAmended, hc] <;>
    split_ifs <;> first | rfl | (exfalso; omega)

/-! Claim C3. -/

/-- Claim C3 counterexample: the scenario is false as stated. For the query
about fetching from an api every day at 7am and storing in postgres, the
intent is not SCHEDULING (every is only a trigger word, none of the
scheduling keywords occur), no postgres block is required (postgres is not
in the service-entity vocabulary), and the complexity is neither moderate
nor complex. -/
theorem c3_scheduling_scenario_counterexample :
    (analyzeQuery "every day at 7am fetch data from an api and store in postgres").intent
      ≠ WorkflowIntent.scheduling ∧
    "n8n-nodes-base.postgres"
      ∉ (analyzeQuery "every day at 7am fetch data from an api and store in postgres").required_nodes ∧
    (analyzeQuery "every day at 7am fetch data from an api and store in postgres").workflow_complexity
      ≠ "moderate" ∧
    (analyzeQuery "every day at 7am fetch data from an api and store in postgres").workflow_complexity
      ≠ "complex" := by
  refine ⟨by decide, by decide, by decide, by decide⟩

/-- Claim C3 (amended): for that query, analyze returns intent
API_INTEGRATION, a non-empty triggers list, required blocks exactly
[scheduleTrigger, httpRequest] (so the list begins with the schedule-entry
block and contains the http-fetch block, but no postgres block), and
complexity SIMPLE. -/
theorem c3_scheduling_scenario_amended :
    (analyzeQuery "every day at 7am fetch data from an api and store in postgres").intent
      = WorkflowIntent.api_integration ∧
    (analyzeQuery "every day at 7am fetch data from an api and store in postgres").entities.triggers
      ≠ [] ∧
    (analyzeQuery "every day at 7am fetch data from an api and store in postgres").required_nodes
      = ["n8n-nodes-base.scheduleTrigger", "n8n-nodes-base.httpRequest"] ∧
    (analyzeQuery "every day at 7am fetch data from an api and store in postgres").workflow_complexity
      = "simple" := by
  refine ⟨by decide, by decide, by decide, by decide⟩

/-! Claim C4. -/

/-- Claim C4 counterexample: the claim is false for a call with success true
and a falsy workflow argument: the history row is appended but no
effectiveness record is created or updated for the required block X. -/
theorem c4_record_counterexample :
    (recordGeneration "q" c4Ctx false true initFeedbackState).history.length = 1 ∧
    "X" ∈ c4Ctx.required_nodes ∧
    (recordGeneration "q" c4Ctx false true initFeedbackState).nodeEff = [] ∧
    getNodeWeight (recordGeneration "q" c4Ctx false true initFeedbackState) "X" = none := by
  refine ⟨by decide, by decide, by decide, by decide⟩

/-- Claim C4 (amended): every record call appends exactly one
generation-history row; whenever the call is a failure, or a success with a
truthy workflow, each block of the context's required-blocks list has its
effectiveness record updated or created, with totals incremented by the
block's multiplicity, successes only on success, and the block weight
maintained as successfulUses/totalUses; consequently after 10 recorded
successes for block X the weight is exactly 1, and one additional failure
strictly decreases it to 10/11. -/
theorem c4_record_amended (q : String) (ctx : FeedbackCtx) (wf succ : Bool)
    (st : FeedbackState) (b : String)
    (hupd : succ = false ∨ wf = true) (hb : b ∈ ctx.required_nodes) :
    C4Concl q ctx wf succ st b := by
  have hNE : (recordGeneration q ctx wf succ st).nodeEff
      = updateNodeEffectiveness ctx succ st.nodeEff := by
    cases succ with
    | false => simp [recordGeneration]
    | true =>
      have hwf : wf = true := by
        rcases hupd with h | h
        · exact absurd h (by simp)
        · exact h
      subst hwf
      simp [recordGeneration]
  have hH : (recordGeneration q ctx wf succ st).history.length
      = st.history.length + 1 := by
    simp only [recordGeneration]
    split_ifs <;> simp
  unfold C4Concl
  refine ⟨hH, ?_, ?_, ?_, ?_, ?_, ?_⟩
  · rw [hNE]
    exact totalUses_foldUpd succ ctx.required_nodes b st.nodeEff
  · rw [hNE]
    exact succUses_foldUpd succ ctx.required_nodes b st.nodeEff
  · obtain ⟨r, hr, ht, hs, ha⟩ :=
      avg_foldUpd_mem succ ctx.required_nodes b hb st.nodeEff
    have hpos : 0 < r.total_uses := by
      have := List.count_pos_iff.mpr hb
      omega
    simp only [getNodeWeight, succUses, totalUses, hNE, updateNodeEffectiveness, hr]
    rw [if_pos hpos, ha]
  · simp +decide [getNodeWeight, c4After10, c4Ctx, initFeedbackState, recordGeneration,
      updateNodeEffectiveness, updatePatternEffectiveness, updEffList, List.range_succ,
      List.lookup]
  · simp +decide [getNodeWeight, c4After11, c4After10, c4Ctx, initFeedbackState,
      recordGeneration, updateNodeEffectiveness, updatePatternEffectiveness, updEffList,
      List.range_succ, List.lookup]
  · norm_num

/-- Witness for the amended claim C4: a successful record with a workflow
for block X on the empty database. -/
theorem c4_record_amended_witness :
    ((true : Bool) = false ∨ (true : Bool) = true) ∧
    "X" ∈ c4Ctx.required_nodes ∧
    C4Concl "q" c4Ctx true true initFeedbackState "X" :=
  ⟨Or.inr rfl, by decide,
    c4_record_amended "q" c4Ctx true true initFeedbackState "X" (Or.inr rfl) (by decide)⟩

/-! Claim C5. -/

/-- Claim C5: for every input query, if entity extraction finds trigger
words then the required-blocks list of the analysis is non-empty; moreover,
whenever no block of the pre-trigger list contains the substring Trigger, an
entry block is prepended at position 0: scheduleTrigger when the cleaned
query contains schedule or every, webhook otherwise. -/
theorem c5_trigger_nonempty (q : String)
    (h : (extractEntities (cleanQuery q)).triggers ≠ []) :
    (analyzeQuery q).required_nodes ≠ [] ∧
    (¬ (requiredNodesBase (detectIntent (cleanQuery q)) (extractEntities (cleanQuery q))).any
        (fun n => strContains n "Trigger") →
      (analyzeQuery q).required_nodes =
        (if strContains (cleanQuery q) "schedule" || strContains (cleanQuery q) "every" then
          "n8n-nodes-base.scheduleTrigger"
        else "n8n-nodes-base.webhook")
          :: requiredNodesBase (detectIntent (cleanQuery q)) (extractEntities (cleanQuery q))) := by
  constructor
  · simp only [analyzeQuery, identifyRequiredNodes]
    split
    · simp
    · rename_i hcond
      have hany : (requiredNodesBase (detectIntent (cleanQuery q))
          (extractEntities (cleanQuery q))).any (fun n => strContains n "Trigger") = true := by
        by_contra hno
        exact hcond ⟨h, hno⟩
      intro heq
      rw [heq] at hany
      simp at hany
  · intro hany
    simp only [analyzeQuery, identifyRequiredNodes]
    rw [if_pos ⟨h, hany⟩]

/-- Witness for claim C5 at the query receive data. -/
theorem c5_trigger_nonempty_witness :
    (extractEntities (cleanQuery "receive data")).triggers ≠ [] ∧
    ((analyzeQuery "receive data").required_nodes ≠ [] ∧
      (¬ (requiredNodesBase (detectIntent (cleanQuery "receive data"))
            (extractEntities (cleanQuery "receive data"))).any
          (fun n => strContains n "Trigger") →
        (analyzeQuery "receive data").required_nodes =
          (if strContains (cleanQuery "receive data") "schedule"
              || strContains (cleanQuery "receive data") "every" then
            "n8n-nodes-base.scheduleTrigger"
          else "n8n-nodes-base.webhook")
            :: requiredNodesBase (detectIntent (cleanQuery "receive data"))
                (extractEntities (cleanQuery "receive data")))) :=
  ⟨by decide, c5_trigger_nonempty "receive data" (by decide)⟩

/-! Claim C6. -/

/-- Claim C6 counterexample: the claim is false as stated: a raw hit with
distance 4 (perfectly possible for a squared-euclidean vector store) is
formatted with relevance score -1, outside the interval from 0 to 1. -/
theorem c6_relevance_counterexample :
    formatResults [("doc", [], 4)]
      = [{ content := "doc", metadata := [], relevance_score := -1 }] ∧
    ¬ (0 ≤ (-1 : ℚ)) := by
  constructor
  · simp only [formatResults, List.map]
    norm_num
  · norm_num

/-- Claim C6 (amended): every result produced by _format_results carries
relevance score 1 - distance/2, which lies in the closed interval from 0 to
1 precisely when the reported distance lies between 0 and 2; no reranking
bonus is ever applied to these results. -/
theorem c6_relevance_amended (raw : List (String × List (String × String) × ℚ))
    (hd : ∀ x ∈ raw, 0 ≤ x.2.2 ∧ x.2.2 ≤ 2) :
    ∀ r ∈ formatResults raw, 0 ≤ r.relevance_score ∧ r.relevance_score ≤ 1 := by
  intro r hr
  simp only [formatResults, List.mem_map] at hr
  obtain ⟨x, hx, rfl⟩ := hr
  obtain ⟨h0, h2⟩ := hd x hx
  constructor
  · simp only []
    linarith
  · simp only []
    linarith

/-- Witness for the amended claim C6 at distance 1. -/
theorem c6_relevance_amended_witness :
    (∀ x ∈ [("a", ([] : List (String × String)), (1 : ℚ))], 0 ≤ x.2.2 ∧ x.2.2 ≤ 2) ∧
    ∀ r ∈ formatResults [("a", ([] : List (String × String)), (1 : ℚ))],
      0 ≤ r.relevance_score ∧ r.relevance_score ≤ 1 := by
  have hd : ∀ x ∈ [("a", ([] : List (String × String)), (1 : ℚ))],
      0 ≤ x.2.2 ∧ x.2.2 ≤ 2 := by
    intro x hx
    rw [List.mem_singleton] at hx
    subst hx
    norm_num
  exact ⟨hd, c6_relevance_amended _ hd⟩

/-! Claim C7. -/

/-- Helper for claim C7: when no retrieved chunk's content contains the
block identifier, the documentation scan leaves the record unchanged. -/
theorem getNodeDocGo_no_match (nt : String) :
    ∀ (chunks : List RetrievalResult),
      (∀ c ∈ chunks, strContains c.content nt = false) →
      ∀ doc, getNodeDocGo nt doc chunks = doc := by
  intro chunks
  induction chunks with
  | nil => intro _ doc; rfl
  | cons c rest ih =>
    intro hno doc
    have hc := hno c (List.mem_cons_self c rest)
    simp only [getNodeDocGo, hc, Bool.false_eq_true, if_false]
    exact ih (fun c' hc' => hno c' (List.mem_cons_of_mem c hc')) doc

/-- Claim C7 counterexample: the claim is false as stated: with no retrieved
node chunk at all, the required block's documentation section is not
omitted; one entry with empty description and properties is appended. -/
theorem c7_nodedoc_counterexample :
    assembleNodeDocumentation ["n8n-nodes-base.webhook"] []
      = [emptyNodeDoc "n8n-nodes-base.webhook"] ∧
    (assembleNodeDocumentation ["n8n-nodes-base.webhook"] []).length = 1 := by
  exact ⟨rfl, rfl⟩

/-- Claim C7 (amended): context assembly appends exactly one
node-documentation entry per required block (the guard in the source is
always satisfied because the built record is a non-empty dict); when no
retrieved hit's content mentions the block identifier the appended entry is
the empty record for that block, and no error is raised. -/
theorem c7_nodedoc_amended (required : List String) (chunks : List RetrievalResult) :
    (assembleNodeDocumentation required chunks).length = required.length ∧
    (∀ nt ∈ required, (∀ c ∈ chunks, strContains c.content nt = false) →
      getNodeDocumentation nt chunks = emptyNodeDoc nt) := by
  constructor
  · simp [assembleNodeDocumentation]
  · intro nt _ hno
    exact getNodeDocGo_no_match nt chunks hno (emptyNodeDoc nt)

/-- Witness for the amended claim C7 with one required block and no chunks. -/
theorem c7_nodedoc_amended_witness :
    (assembleNodeDocumentation ["n8n-nodes-base.slack"] []).length
      = (["n8n-nodes-base.slack"] : List String).length ∧
    (∀ nt ∈ (["n8n-nodes-base.slack"] : List String),
      (∀ c ∈ ([] : List RetrievalResult), strContains c.content nt = false) →
      getNodeDocumentation nt [] = emptyNodeDoc nt) :=
  c7_nodedoc_amended ["n8n-nodes-base.slack"] []

/-! Claim C8. -/

/-- Claim C8 (code bug): the four fixed validation rules are always present,
but when the webhook entry block n8n-nodes-base.webhook is among the
required blocks the httpMethod/path rule is NOT appended: the source tests
list membership of the literal string nodes-base.webhook, which never equals
the full block identifier, so the branch is dead and the rule list for a
required webhook is exactly the four fixed rules. -/
theorem c8_webhook_rule_dead :
    (∀ required : List String, (getValidationRules required).take 4 = fixedValidationRules) ∧
    getValidationRules ["n8n-nodes-base.webhook"] = fixedValidationRules ∧
    "Webhook must have httpMethod and path parameters"
      ∉ getValidationRules ["n8n-nodes-base.webhook"] := by
  refine ⟨?_, by decide, by decide⟩
  intro required
  simp only [getValidationRules, fixedValidationRules]
  split_ifs <;> rfl

/-! Claim C9. -/

/-- Claim C9: for every input text no longer than the configured chunk size,
split_text returns the single-element list containing the text, except for
the empty string, which yields the empty list. -/
theorem c9_split_short_text (splitter : String → List String) (chunk_size : Nat)
    (t : String) (hlen : t.length ≤ chunk_size) :
    splitText splitter chunk_size t = if t = "" then [] else [t] := by
  unfold splitText
  rw [if_pos (Or.inr hlen)]
  by_cases ht : t = ""
  · simp [ht]
  · simp [ht]

/-- Witness for claim C9 with the default chunk size 800. -/
theorem c9_split_short_text_witness :
    ("abc".length ≤ 800) ∧
    splitText (fun _ => []) 800 "abc" = if "abc" = "" then [] else ["abc"] :=
  ⟨by decide, c9_split_short_text (fun _ => []) 800 "abc" (by decide)⟩

/-! Claim C10. -/

/-- Claim C10 counterexample: the claim is false as stated over every
vector-store response: a store that returns four template documents when
only min(5,3) = 3 were requested flows through uncapped, so the templates
list has 4 entries. -/
theorem c10_caps_counterexample :
    (multiStageRetrieval (fun _ => true) c10Store 2 5).templates.length = 4 ∧
    ¬ ((multiStageRetrieval (fun _ => true) c10Store 2 5).templates.length ≤ min 5 3) := by
  refine ⟨by decide, by decide⟩

/-- Claim C10 (amended): provided every vector-store query returns at most
the requested number of results, the multi-stage retrieval output satisfies
the per-collection caps: at most k_per_stage deduplicated node results even
though two expanded-query embeddings are used, at most min(k_per_stage, 3)
template and task results, at most min(k_per_stage, 2) connection results,
and collections absent from the loaded set contribute empty lists. -/
theorem c10_caps_amended (loaded : String → Bool)
    (store : String → Nat → Nat → List (String × List (String × String) × ℚ))
    (numQueries k : Nat)
    (hstore : ∀ c i n, (store c i n).length ≤ n) :
    C10Concl loaded store numQueries k := by
  unfold C10Concl
  refine ⟨?_, ?_, ?_, ?_, ?_, ?_, ?_, ?_⟩
  · simp only [multiStageRetrieval]
    split
    · rcases Nat.eq_zero_or_pos k with hk | hk
      · subst hk
        have hempty : ∀ i, formatResults (store "n8n_nodes" i 0) = [] := by
          intro i
          have hz := Nat.le_zero.mp (hstore "n8n_nodes" i 0)
          rw [List.length_eq_zero.mp hz]
          rfl
        rw [foldl_append_nil _ hempty _ []]
        simp [sortByDesc, dedupLoop]
      · exact dedupLoop_length_le k _ _ _ hk
    · simp
  · simp only [multiStageRetrieval]
    split
    · rw [formatResults_length]
      exact hstore _ _ _
    · simp
  · simp only [multiStageRetrieval]
    split
    · rw [formatResults_length]
      exact hstore _ _ _
    · simp
  · simp only [multiStageRetrieval]
    split
    · rw [formatResults_length]
      exact hstore _ _ _
    · simp
  · intro hl
    simp [multiStageRetrieval, hl]
  · intro hl
    simp [multiStageRetrieval, hl]
  · intro hl
    simp [multiStageRetrieval, hl]
  · intro hl
    simp [multiStageRetrieval, hl]

/-- Witness for the amended claim C10 with the empty store. -/
theorem c10_caps_amended_witness :
    (∀ c i n, (emptyStore c i n).length ≤ n) ∧
    C10Concl (fun _ => true) emptyStore 1 5 :=
  ⟨fun c i n => by simp [emptyStore],
    c10_caps_amended (fun _ => true) emptyStore 1 5 (fun c i n => by simp [emptyStore])⟩
